import Mathlib

/-!
Verification development for the Job-Portal backend
(`src/backend/src/routes/user.ts`, `src/backend/src/routes/company.ts`,
data model `src/backend/prisma/schema.prisma`).

The relational store is embedded as lists of records; Prisma operations are
translated directly: `findUnique` / `findFirst` become `List.find?`,
`findMany` becomes `List.filter`, `create` appends a record, `update` maps
over the list.  Freshly generated ids (`uuid` defaults) are passed in as
explicit parameters.  Timestamp columns (`createdAt`) are omitted: no route
under verification reads or branches on them.

The module `../Validation` (zod schemas `signupValidation`,
`applicationValidation`, `statusValidation`, `companyValidation`) is imported
by the routes but is not part of the sources; routes are therefore
parameterised over the validation predicate, except `statusValidation`,
which the spec pins down ("validate newStatus against the status enum") and
which is modelled concretely below.

External collaborators (bcrypt hashing, JWT verification) are likewise
passed in as function parameters, matching the spec's "external collaborator"
treatment.
-/

namespace JobPortal

/-! ## Data model (schema.prisma) -/

/-- `enum Role { Recruiter Candidate }` -/
inductive Role where
  | Recruiter
  | Candidate
deriving DecidableEq, Repr

/-- `enum applicationStatus { Rejected Applied Interviewing Hired }` -/
inductive ApplicationStatus where
  | Rejected
  | Applied
  | Interviewing
  | Hired
deriving DecidableEq, Repr

/-- `model User`: id, fullName, email, password (hash), role. -/
structure User where
  id : String
  fullName : String
  email : String
  password : String
  role : Role
deriving DecidableEq, Repr

/-- `model Company`: id, name, logo. -/
structure Company where
  id : String
  name : String
  logo : String
deriving DecidableEq, Repr

/-- `model Job`: id, recruiterId, optional companyId, text fields, isOpen. -/
structure Job where
  id : String
  recruiterId : String
  companyId : Option String
  title : String
  description : String
  location : String
  jobType : String
  requirement : String
  isOpen : Bool
deriving DecidableEq, Repr

/-- `model jobApplication`: id, applicantId, optional jobId, optional status,
isApplied flag, resume/skills/experience/education strings. -/
structure JobApplication where
  id : String
  applicantId : String
  jobId : Option String
  status : Option ApplicationStatus
  isApplied : Bool
  resume : String
  skills : String
  experience : String
  education : String
deriving DecidableEq, Repr

/-- The relational store: one table per model (SavedJobs carries no claim
and is omitted from the routes under verification, but kept for the model). -/
structure SavedJob where
  id : String
  userId : String
  jobId : String
deriving DecidableEq, Repr

structure DB where
  users : List User
  companies : List Company
  jobs : List Job
  applications : List JobApplication
  savedJobs : List SavedJob
deriving DecidableEq, Repr

/-! ## String helpers

`strIncludes hay pat` models JavaScript `hay.includes(pat)` and the Prisma
`contains` filter; `lowerStr` models `mode: "insensitive"` (both sides
lowercased before comparison). -/

/-- `leadsWith pat l` : `pat` is an initial segment of `l`. -/
def leadsWith : List Char → List Char → Bool
  | [], _ => true
  | _ :: _, [] => false
  | a :: as, b :: bs => a == b && leadsWith as bs

/-- `hasSub pat l` : `pat` occurs contiguously somewhere inside `l`. -/
def hasSub (pat : List Char) : List Char → Bool
  | [] => leadsWith pat []
  | c :: rest => leadsWith pat (c :: rest) || hasSub pat rest

/-- JavaScript `hay.includes(pat)` / Prisma `contains`. -/
def strIncludes (hay pat : String) : Bool :=
  hasSub pat.data hay.data

/-- Lower-casing for Prisma `mode: "insensitive"` matching. -/
def lowerStr (s : String) : String :=
  String.mk (s.data.map Char.toLower)

/-! ## Submit — `userRouter.post("/application/:id")` (user.ts:333-440) -/

/-- Request body of Submit: `{ education, experience, skills, resume }`. -/
structure ApplicationPayload where
  education : String
  experience : String
  skills : String
  resume : String
deriving DecidableEq, Repr

/-- Outcomes of Submit, with the HTTP status each maps to in the source:
validation error 400, job not found 401, caller not a Candidate 404
("Only Candidate can create Apllications for Job" — the spec's `Forbidden`),
already applied 402 (the spec's `Conflict`), created 201. -/
inductive SubmitResult where
  | validationError
  | jobNotFound
  | notCandidate
  | alreadyApplied
  | created (app : JobApplication)
deriving DecidableEq, Repr

/-- The record inserted by `prisma.jobApplication.create` in Submit:
`status: 'Applied'`, schema defaults `isApplied: true`, links to the
resolved candidate and job. -/
def newApplication (newId : String) (candidate : User) (job : Job)
    (payload : ApplicationPayload) : JobApplication :=
  { id := newId
    applicantId := candidate.id
    jobId := some job.id
    status := some .Applied
    isApplied := true
    resume := payload.resume
    skills := payload.skills
    experience := payload.experience
    education := payload.education }

/-- `POST /application/:id`, translated branch by branch from user.ts:
validate payload; `prisma.job.findUnique({where: {id: jobId}})`;
`prisma.user.findFirst({where: {id: userId, role: "Candidate"}})`;
`prisma.jobApplication.findFirst({where: {applicantId, jobId}})`;
`prisma.jobApplication.create({... status: 'Applied'})`.
Note: no branch consults `job.isOpen`. -/
def submitApplication (validPayload : ApplicationPayload → Bool) (newId : String)
    (db : DB) (jobId userId : String) (payload : ApplicationPayload) :
    SubmitResult × DB :=
  if !validPayload payload then (.validationError, db)
  else
    match db.jobs.find? (fun j => j.id == jobId) with
    | none => (.jobNotFound, db)
    | some job =>
      match db.users.find? (fun u => u.id == userId && u.role == Role.Candidate) with
      | none => (.notCandidate, db)
      | some candidate =>
        match db.applications.find?
            (fun a => a.applicantId == candidate.id && a.jobId == some job.id) with
        | some _ => (.alreadyApplied, db)
        | none =>
          let app := newApplication newId candidate job payload
          (.created app, { db with applications := db.applications ++ [app] })

/-- "At most one Application per (candidate, job) pair": no two entries of
the application table carry the same applicant and the same non-null job. -/
abbrev atMostOnePerPair (db : DB) : Prop :=
  db.applications.Pairwise
    (fun a b => a.applicantId ≠ b.applicantId ∨ a.jobId ≠ b.jobId ∨ a.jobId = none)

/-! ## ListForJob — `userRouter.get("/allapplications/:id")` (user.ts:442-502) -/

/-- Outcomes of ListForJob: missing job id 400, job not found 404,
caller not a Recruiter 403 (the spec's `Forbidden`), success 200. -/
inductive ListResult where
  | missingJobId
  | jobNotFound
  | forbidden
  | ok (apps : List JobApplication)
deriving DecidableEq, Repr

/-- `GET /allapplications/:id`: `if (!jobId)` (falsy, i.e. empty string);
`prisma.job.findUnique({where: {id: jobId}})`;
`prisma.user.findFirst({where: {id: userId, role: "Recruiter"}})`;
`prisma.jobApplication.findMany({where: {jobId}})`.
The route never mutates the store. -/
def listForJob (db : DB) (jobId userId : String) : ListResult :=
  if jobId == "" then .missingJobId
  else
    match db.jobs.find? (fun j => j.id == jobId) with
    | none => .jobNotFound
    | some _ =>
      match db.users.find? (fun u => u.id == userId && u.role == Role.Recruiter) with
      | none => .forbidden
      | some _ => .ok (db.applications.filter (fun a => a.jobId == some jobId))

/-! ## UpdateStatus — `userRouter.put("/status")` (user.ts:506-574) -/

/-- Parsing a raw status string into the `applicationStatus` enum. -/
def parseStatus : String → Option ApplicationStatus
  | "Rejected" => some .Rejected
  | "Applied" => some .Applied
  | "Interviewing" => some .Interviewing
  | "Hired" => some .Hired
  | _ => none

/-- The canonical name of each enum value. -/
def statusName : ApplicationStatus → String
  | .Rejected => "Rejected"
  | .Applied => "Applied"
  | .Interviewing => "Interviewing"
  | .Hired => "Hired"

/-- Modelled from the spec: `statusValidation` lives in `../Validation`,
which is not among the sources.  The spec (§4.4 UpdateStatus step 1) says
"Validate applicationId and newStatus against the status enum", so the
check is that `status` parses as one of the four enum values. -/
def statusValidation (_applicationId status : String) : Bool :=
  (parseStatus status).isSome

/-- Outcomes of UpdateStatus: validation error 400, caller not a
Recruiter 403 (the spec's `Forbidden`), application not found 404,
success 200 with the updated record. -/
inductive UpdateStatusResult where
  | validationError
  | forbidden
  | appNotFound
  | updated (app : JobApplication)
deriving DecidableEq, Repr

/-- `PUT /status`: validate; `prisma.user.findFirst({where: {id: userId,
role: "Recruiter"}})` — note this role check comes BEFORE the application
lookup; `prisma.jobApplication.findUnique({where: {id: applicationId}})`;
`prisma.jobApplication.update({where: {id}, data: {status}})`, embedded as
a map that rewrites the matching record's status.  No branch inspects the
application's previous status. -/
def updateStatus (db : DB) (userId applicationId status : String) :
    UpdateStatusResult × DB :=
  if !statusValidation applicationId status then (.validationError, db)
  else
    match db.users.find? (fun u => u.id == userId && u.role == Role.Recruiter) with
    | none => (.forbidden, db)
    | some _ =>
      match db.applications.find? (fun a => a.id == applicationId) with
      | none => (.appNotFound, db)
      | some app =>
        let app' : JobApplication := { app with status := parseStatus status }
        (.updated app',
          { db with applications :=
              db.applications.map (fun a => if a.id == app.id then app' else a) })

/-! ## Register — `userRouter.post("/signup")` (user.ts:46-111) -/

/-- Request body of Register.  The role arrives as part of the JSON body;
`signupValidation` (external, parameterised) guards its shape. -/
structure SignupInput where
  email : String
  password : String
  fullName : String
  role : Role
deriving DecidableEq, Repr

/-- Outcomes of Register: validation error 400, duplicate email 409
(the spec's `Conflict`), created 201. -/
inductive SignupResult where
  | validationError
  | conflict
  | created (u : User)
deriving DecidableEq, Repr

/-- `POST /signup`: validate; `prisma.user.findUnique({where: {email}})`,
conflict if found; else `bcrypt.hash` the password and
`prisma.user.create`.  `hash` models the bcrypt collaborator and `newId`
the uuid default. -/
def signup (valid : SignupInput → Bool) (hash : String → String) (newId : String)
    (db : DB) (input : SignupInput) : SignupResult × DB :=
  if !valid input then (.validationError, db)
  else
    match db.users.find? (fun u => u.email == input.email) with
    | some _ => (.conflict, db)
    | none =>
      let u : User :=
        { id := newId
          fullName := input.fullName
          email := input.email
          password := hash input.password
          role := input.role }
      (.created u, { db with users := db.users ++ [u] })

/-! ## UpdateSelf — `userRouter.put("/update")` (user.ts:300-329) -/

/-- JavaScript truthiness of an optional string field read from the JSON
body: absent (`undefined`) and the empty string are both falsy. -/
def truthyStr : Option String → Bool
  | none => false
  | some s => !(s == "")

/-- Outcomes of UpdateSelf: success 200 with the record returned by the
update, or the catch-all 500 when the Prisma call throws. -/
inductive UpdateSelfResult where
  | updated (u : User)
  | serverError
deriving DecidableEq, Repr

/-- `PUT /update`: builds `updateData` with `if (name) updateData.name = name`
and `if (password) updateData.password = await bcrypt.hash(password, 10)`,
then `prisma.user.update({where: {id: userId}, data: updateData})`.

The Prisma `User` model (schema.prisma:22-31) has a `fullName` column and
no `name` column, so whenever the `name` key is present in `data` the
Prisma client rejects the unknown argument and throws; the route's catch
converts that to the 500 response, leaving the store untouched.  Likewise
`update` on an id that matches no row throws (P2025) and yields 500. -/
def updateSelf (hash : String → String) (db : DB) (userId : String)
    (name password : Option String) : UpdateSelfResult × DB :=
  if truthyStr name then (.serverError, db)
  else
    match db.users.find? (fun u => u.id == userId) with
    | none => (.serverError, db)
    | some u =>
      let u' : User :=
        if truthyStr password then { u with password := hash (password.getD "") }
        else u
      (.updated u',
        { db with users := db.users.map (fun v => if v.id == u.id then u' else v) })

/-! ## Search — `userRouter.get("/bulk")` (user.ts:173-201) -/

/-- The Prisma `where` clause of `/bulk`: fullName OR email `contains`
the filter with `mode: "insensitive"` (both sides lowercased). -/
def userMatches (filter : String) (u : User) : Bool :=
  strIncludes (lowerStr u.fullName) (lowerStr filter) ||
    strIncludes (lowerStr u.email) (lowerStr filter)

/-- `GET /bulk?filter=`: `c.req.query('filter') || ''` then
`prisma.user.findMany({where: {OR: [...]}})` with no `select` clause, so
the full records — password hash included — are returned. -/
def bulkUsers (db : DB) (filter : String) : List User :=
  db.users.filter (userMatches filter)

/-! ## Create company — `companyRouter.post("/create")` (company.ts:38-85) -/

structure CompanyInput where
  name : String
  logo : String
deriving DecidableEq, Repr

/-- Outcomes of company creation with source status codes: validation
error 400, duplicate name 400, created 200.  There is no role-based
refusal: the handler never queries the caller's user record. -/
inductive CreateCompanyResult where
  | validationError
  | duplicateName
  | created (comp : Company)
deriving DecidableEq, Repr

/-- HTTP status the source attaches to each company-creation outcome. -/
def companyStatusCode : CreateCompanyResult → Nat
  | .validationError => 400
  | .duplicateName => 400
  | .created _ => 200

/-- `POST /company/create`: validate (`companyValidation`, external,
parameterised); `prisma.company.findFirst({where: {name}})`, refuse
duplicates; else `prisma.company.create`.  The `callerUserId` attached by
the middleware is never read. -/
def createCompany (valid : CompanyInput → Bool) (newId : String)
    (db : DB) (callerUserId : String) (input : CompanyInput) :
    CreateCompanyResult × DB :=
  if !valid input then (.validationError, db)
  else
    match db.companies.find? (fun comp => comp.name == input.name) with
    | some _ => (.duplicateName, db)
    | none =>
      let comp : Company := { id := newId, name := input.name, logo := input.logo }
      (.created comp, { db with companies := db.companies ++ [comp] })

/-! ## Authentication middleware — `userRouter.use("/*")` (user.ts:20-43) -/

/-- Outcome of the middleware: proceed to the handler (with the userId the
middleware attached to the context, if any), or reject with 403. -/
inductive AuthResult where
  | proceed (userId : Option String)
  | reject403
deriving DecidableEq, Repr

/-- The middleware: `const path = c.req.url` (the FULL request URL);
`if (path.includes("/signin") || path.includes("/signup"))` skip
verification and call `next()` without setting `userId`; otherwise
`verify(authHeader, secret)` — a falsy result or a thrown error both
produce a 403 response.  `verify` models the JWT collaborator: `some id`
for a verified claim carrying that user id, `none` for falsy/throwing. -/
def userAuthMiddleware (verify : String → Option String)
    (url authHeader : String) : AuthResult :=
  if strIncludes url "/signin" || strIncludes url "/signup" then
    .proceed none
  else
    match verify authHeader with
    | some uid => .proceed (some uid)
    | none => .reject403

/-! ## Concrete fixtures

A small store used to instantiate the theorems below on explicit inputs:
one Candidate, one Recruiter, one open and one closed job, and one
existing application by the candidate to the open job. -/

def wCandidate : User :=
  { id := "u1", fullName := "Bob", email := "bob@mail.dev",
    password := "hb", role := .Candidate }

def wRecruiter : User :=
  { id := "r1", fullName := "Rita", email := "rita@jobs.dev",
    password := "hr", role := .Recruiter }

def wJob : Job :=
  { id := "j1", recruiterId := "r1", companyId := none, title := "Dev",
    description := "build", location := "remote", jobType := "full",
    requirement := "lean", isOpen := true }

def wClosedJob : Job :=
  { id := "j2", recruiterId := "r1", companyId := none, title := "Ops",
    description := "run", location := "onsite", jobType := "part",
    requirement := "bash", isOpen := false }

def wApp : JobApplication :=
  { id := "a1", applicantId := "u1", jobId := some "j1",
    status := some .Applied, isApplied := true, resume := "cv",
    skills := "s", experience := "e", education := "ed" }

def wPayload : ApplicationPayload :=
  { education := "ed2", experience := "e2", skills := "s2", resume := "cv2" }

def wDb : DB :=
  { users := [wCandidate, wRecruiter], companies := [], jobs := [wJob, wClosedJob],
    applications := [wApp], savedJobs := [] }

/-- A concrete stand-in for the bcrypt collaborator. -/
def wHash (s : String) : String := "hashed:" ++ s

/-- A concrete stand-in for the JWT collaborator: exactly one valid token. -/
def wVerify (t : String) : Option String :=
  if t == "tok" then some "u7" else none

/-! ## Helper lemmas -/

theorem hasSub_nil (l : List Char) : hasSub [] l = true := by
cases l <;> simp [hasSub, leadsWith]

theorem strIncludes_empty (s : String) : strIncludes s "" = true := by
unfold strIncludes
have h : ("" : String).data = [] := rfl
rw [h]
exact hasSub_nil s.data

theorem userMatches_empty (u : User) : userMatches "" u = true := by
unfold userMatches
have h : lowerStr "" = "" := rfl
rw [h, strIncludes_empty]
simp

theorem find?_role_eq_none (users : List User) (userId : String) (r r' : Role)
    (hne : r ≠ r') (hall : ∀ u ∈ users, u.id = userId → u.role = r) :
    users.find? (fun u => u.id == userId && u.role == r') = none := by
rw [List.find?_eq_none]
intro u hu hp
simp only [Bool.and_eq_true, beq_iff_eq] at hp
exact hne ((hall u hu hp.1).symm.trans hp.2)

/-! ## Claim theorems -/

/-- Claim C2 is refuted by the code: Submit never consults `isOpen`.  At a
concrete store holding the closed job `wClosedJob` (isOpen = false), a
Submit by the candidate creates an application for it anyway, so "an
Application is created only if the resolved Job exists and its isOpen flag
is true" is false. -/
theorem submit_closed_job_cex :
    wClosedJob.isOpen = false ∧
    wClosedJob ∈ wDb.jobs ∧
    (submitApplication (fun _ => true) "a9" wDb "j2" "u1" wPayload).1 =
      .created (newApplication "a9" wCandidate wClosedJob wPayload) ∧
    (submitApplication (fun _ => true) "a9" wDb "j2" "u1" wPayload).2.applications =
      wDb.applications ++ [newApplication "a9" wCandidate wClosedJob wPayload] := by
decide

/-- Claim C2, amended: before creating an Application, Submit consults the
Job Catalog only for existence — an Application is created only if the
referenced job resolves; the job's isOpen flag is not consulted, so a
closed job accepts applications as well. -/
theorem submit_created_requires_job
    (vp : ApplicationPayload → Bool) (newId : String) (db : DB)
    (jobId userId : String) (payload : ApplicationPayload) (app : JobApplication)
    (h : (submitApplication vp newId db jobId userId payload).1 = .created app) :
    ∃ job ∈ db.jobs, job.id = jobId := by
unfold submitApplication at h
split at h
· simp at h
· split at h
  · simp at h
  · next job heq =>
    refine ⟨job, List.mem_of_find?_eq_some heq, ?_⟩
    have hp := List.find?_some heq
    simpa using hp

/-- Witness for C2's amended theorem: at the concrete store, Submit on job
"j2" creates an application, and indeed a job with id "j2" exists. -/
theorem submit_created_requires_job_witness :
    ∃ job ∈ wDb.jobs, job.id = "j2" :=
submit_created_requires_job (fun _ => true) "a9" wDb "j2" "u1" wPayload
  (newApplication "a9" wCandidate wClosedJob wPayload) (by decide)

/-- Claim C4: when every user with the caller's id has role Recruiter (the
caller is not a registered Candidate), Submit on an existing job with a
valid payload fails with the 404 "Only Candidate can create Apllications"
response — the spec's `Forbidden` — and the store, in particular the
application table, is returned unchanged. -/
theorem submit_recruiter_forbidden
    (vp : ApplicationPayload → Bool) (newId : String) (db : DB)
    (jobId userId : String) (payload : ApplicationPayload) (job : Job) (u0 : User)
    (hvp : vp payload = true)
    (hjob : db.jobs.find? (fun j => j.id == jobId) = some job)
    (hu0 : u0 ∈ db.users) (hid : u0.id = userId) (hrole : u0.role = Role.Recruiter)
    (hall : ∀ u ∈ db.users, u.id = userId → u.role = Role.Recruiter) :
    submitApplication vp newId db jobId userId payload = (.notCandidate, db) := by
have hnone := find?_role_eq_none db.users userId Role.Recruiter Role.Candidate
  (by decide) hall
simp [submitApplication, hvp, hjob, hnone]

/-- Witness for C4: the concrete recruiter "r1" submitting to the open job
"j1" is rejected with the not-a-candidate response and the store is
unchanged. -/
theorem submit_recruiter_forbidden_witness :
    submitApplication (fun _ => true) "a9" wDb "j1" "r1" wPayload =
      (.notCandidate, wDb) :=
submit_recruiter_forbidden (fun _ => true) "a9" wDb "j1" "r1" wPayload wJob
  wRecruiter (by decide) (by decide) (by decide) (by decide) (by decide) (by decide)

/-- Claim C6: a Register call passing input validation whose email some
stored user already carries fails with the 409 Conflict response and creates no
User — the store is returned unchanged — for every validation predicate,
hash function, and arbitrary fullName/password/role in the input. -/
theorem signup_duplicate_email_conflict
    (valid : SignupInput → Bool) (hash : String → String) (newId : String)
    (db : DB) (input : SignupInput)
    (hv : valid input = true)
    (hex : ∃ u ∈ db.users, u.email = input.email) :
    signup valid hash newId db input = (.conflict, db) := by
obtain ⟨u0, hu0, he⟩ := hex
cases hfind : db.users.find? (fun u => u.email == input.email) with
| none =>
  rw [List.find?_eq_none] at hfind
  exact absurd (by simp [he]) (hfind u0 hu0)
| some u' => simp [signup, hv, hfind]

/-- Witness for C6: registering a second account with the candidate's
email "bob@mail.dev" (different name, password and role) is refused with
Conflict and the user table is unchanged. -/
theorem signup_duplicate_email_conflict_witness :
    signup (fun _ => true) wHash "u9" wDb
      { email := "bob@mail.dev", password := "other", fullName := "Robert",
        role := .Recruiter } = (.conflict, wDb) :=
signup_duplicate_email_conflict (fun _ => true) wHash "u9" wDb
  { email := "bob@mail.dev", password := "other", fullName := "Robert",
    role := .Recruiter } (by decide) (by decide)

/-- Claim C1: when an Application already exists for a (candidate, job)
pair, a Submit by that candidate for that job (well-formed payload, job
resolving, caller resolving as Candidate) fails with the 402
"already applied" response — the spec's `Conflict` — and the store is
returned unchanged; moreover Submit preserves the at-most-one-Application
per (candidate, job) invariant in every state, so the invariant can never
be broken via Submit. -/
theorem submit_duplicate_conflict_and_unique :
    (∀ (vp : ApplicationPayload → Bool) (newId : String) (db : DB)
        (jobId userId : String) (payload : ApplicationPayload) (job : Job)
        (cand : User),
        vp payload = true →
        db.jobs.find? (fun j => j.id == jobId) = some job →
        db.users.find? (fun u => u.id == userId && u.role == Role.Candidate) =
          some cand →
        (∃ a ∈ db.applications, a.applicantId = cand.id ∧ a.jobId = some job.id) →
        submitApplication vp newId db jobId userId payload = (.alreadyApplied, db))
    ∧ (∀ (vp : ApplicationPayload → Bool) (newId : String) (db : DB)
        (jobId userId : String) (payload : ApplicationPayload),
        atMostOnePerPair db →
        atMostOnePerPair (submitApplication vp newId db jobId userId payload).2) := by
constructor
· intro vp newId db jobId userId payload job cand hvp hjob hcand hex
  obtain ⟨a0, ha0, h1, h2⟩ := hex
  cases hfind : db.applications.find?
      (fun a => a.applicantId == cand.id && a.jobId == some job.id) with
  | none =>
    rw [List.find?_eq_none] at hfind
    exact absurd (by simp [h1, h2]) (hfind a0 ha0)
  | some aex => simp [submitApplication, hvp, hjob, hcand, hfind]
· intro vp newId db jobId userId payload h
  by_cases hvp : (!vp payload) = true
  · have hdb : (submitApplication vp newId db jobId userId payload).2 = db := by
      simp [submitApplication, hvp]
    rw [hdb]; exact h
  · cases hjob : db.jobs.find? (fun j => j.id == jobId) with
    | none =>
      have hdb : (submitApplication vp newId db jobId userId payload).2 = db := by
        simp [submitApplication, hvp, hjob]
      rw [hdb]; exact h
    | some job =>
      cases hcand : db.users.find?
          (fun u => u.id == userId && u.role == Role.Candidate) with
      | none =>
        have hdb : (submitApplication vp newId db jobId userId payload).2 = db := by
          simp [submitApplication, hvp, hjob, hcand]
        rw [hdb]; exact h
      | some cand =>
        cases hfind : db.applications.find?
            (fun a => a.applicantId == cand.id && a.jobId == some job.id) with
        | some aex =>
          have hdb : (submitApplication vp newId db jobId userId payload).2 = db := by
            simp [submitApplication, hvp, hjob, hcand, hfind]
          rw [hdb]; exact h
        | none =>
          have happs : (submitApplication vp newId db jobId userId payload).2.applications =
              db.applications ++ [newApplication newId cand job payload] := by
            simp [submitApplication, hvp, hjob, hcand, hfind]
          unfold atMostOnePerPair
          rw [happs, List.pairwise_append]
          refine ⟨h, List.pairwise_singleton _ _, ?_⟩
          intro a ha b hb
          rw [List.mem_singleton] at hb
          subst hb
          rw [List.find?_eq_none] at hfind
          have hna := hfind a ha
          simp only [Bool.and_eq_true, beq_iff_eq] at hna
          simp only [newApplication]
          tauto

/-- Witness for C1: the candidate "u1" already holds application "a1" for
job "j1"; re-submitting yields the already-applied response with the store
unchanged, and the concrete store's uniqueness invariant is preserved. -/
theorem submit_duplicate_conflict_and_unique_witness :
    submitApplication (fun _ => true) "a9" wDb "j1" "u1" wPayload =
      (.alreadyApplied, wDb) ∧
    atMostOnePerPair (submitApplication (fun _ => true) "a9" wDb "j1" "u1" wPayload).2 :=
⟨submit_duplicate_conflict_and_unique.1 (fun _ => true) "a9" wDb "j1" "u1"
    wPayload wJob wCandidate (by decide) (by decide) (by decide) (by decide),
  submit_duplicate_conflict_and_unique.2 (fun _ => true) "a9" wDb "j1" "u1"
    wPayload (by decide)⟩

/-- Claim C3: for a caller resolving as a Recruiter, an existing
Application, and a newStatus that is one of the four enum values,
UpdateStatus succeeds and persists exactly that value — the previous
status of the Application is arbitrary and never consulted. -/
theorem updateStatus_recruiter_any_status
    (db : DB) (userId applicationId s : String) (st : ApplicationStatus)
    (recruiter : User) (app : JobApplication)
    (hps : parseStatus s = some st)
    (hrec : db.users.find? (fun u => u.id == userId && u.role == Role.Recruiter) =
      some recruiter)
    (happ : db.applications.find? (fun a => a.id == applicationId) = some app) :
    (updateStatus db userId applicationId s).1 =
      .updated { app with status := some st } ∧
    { app with status := some st } ∈
      (updateStatus db userId applicationId s).2.applications := by
have hval : statusValidation applicationId s = true := by
  simp [statusValidation, hps]
constructor
· simp [updateStatus, hval, hrec, happ, hps]
· have h2 : (updateStatus db userId applicationId s).2.applications =
      db.applications.map
        (fun a => if a.id == app.id then { app with status := parseStatus s } else a) := by
    simp [updateStatus, hval, hrec, happ]
  rw [h2, hps]
  exact List.mem_map.mpr ⟨app, List.mem_of_find?_eq_some happ, by simp⟩

/-- Witness for C3: recruiter "r1" moves application "a1" (currently
Applied) to Interviewing; the same succeeds for each enum value, shown
here at Interviewing. -/
theorem updateStatus_recruiter_any_status_witness :
    (updateStatus wDb "r1" "a1" "Interviewing").1 =
      .updated { wApp with status := some .Interviewing } ∧
    { wApp with status := some .Interviewing } ∈
      (updateStatus wDb "r1" "a1" "Interviewing").2.applications :=
updateStatus_recruiter_any_status wDb "r1" "a1" "Interviewing" .Interviewing
  wRecruiter wApp (by decide) (by decide) (by decide)

/-- Claim C5: a caller resolved to role Candidate gets the 403 Forbidden
response from ListForJob on any existing job, and from UpdateStatus on any
input passing validation; for UpdateStatus the role check precedes the
application lookup, so the applicationId is arbitrary and need not resolve. -/
theorem candidate_caller_forbidden :
    (∀ (db : DB) (jobId userId : String) (job : Job) (u0 : User),
        jobId ≠ "" →
        db.jobs.find? (fun j => j.id == jobId) = some job →
        u0 ∈ db.users → u0.id = userId → u0.role = Role.Candidate →
        (∀ u ∈ db.users, u.id = userId → u.role = Role.Candidate) →
        listForJob db jobId userId = .forbidden)
    ∧ (∀ (db : DB) (userId applicationId s : String) (st : ApplicationStatus)
        (u0 : User),
        parseStatus s = some st →
        u0 ∈ db.users → u0.id = userId → u0.role = Role.Candidate →
        (∀ u ∈ db.users, u.id = userId → u.role = Role.Candidate) →
        updateStatus db userId applicationId s = (.forbidden, db)) := by
constructor
· intro db jobId userId job u0 hne hjob _ _ _ hall
  have hnone := find?_role_eq_none db.users userId Role.Candidate Role.Recruiter
    (by decide) hall
  simp [listForJob, beq_iff_eq, hne, hjob, hnone]
· intro db userId applicationId s st u0 hps _ _ _ hall
  have hval : statusValidation applicationId s = true := by
    simp [statusValidation, hps]
  have hnone := find?_role_eq_none db.users userId Role.Candidate Role.Recruiter
    (by decide) hall
  simp [updateStatus, hval, hnone]

/-- Witness for C5: candidate "u1" is refused by ListForJob on the
existing job "j1" and by UpdateStatus with the valid status "Hired" on the
non-resolving application id "nope". -/
theorem candidate_caller_forbidden_witness :
    listForJob wDb "j1" "u1" = .forbidden ∧
    updateStatus wDb "u1" "nope" "Hired" = (.forbidden, wDb) :=
⟨candidate_caller_forbidden.1 wDb "j1" "u1" wJob wCandidate (by decide)
    (by decide) (by decide) (by decide) (by decide) (by decide),
  candidate_caller_forbidden.2 wDb "u1" "nope" "Hired" .Hired wCandidate
    (by decide) (by decide) (by decide) (by decide) (by decide)⟩

/-- Claim C7 fails on the code: the route writes the JSON field `name`
into Prisma's `data`, but the `User` model has `fullName` and no `name`
column, so any update supplying a name throws inside the Prisma client and
the route answers 500 with the store untouched — the display name can
never be updated through UpdateSelf.  Evaluated at the failing input: user
"u1" (fullName "Bob") supplies name "Alice" and gets the server error with
nothing changed, while the password-only path does update exactly the
password hash and nothing else. -/
theorem updateSelf_name_field_bug :
    updateSelf wHash wDb "u1" (some "Alice") none = (.serverError, wDb) ∧
    wCandidate.fullName = "Bob" ∧
    (updateSelf wHash wDb "u1" none (some "pw")).1 =
      .updated { wCandidate with password := wHash "pw" } ∧
    (updateSelf wHash wDb "u1" none (some "pw")).2.users =
      [{ wCandidate with password := wHash "pw" }, wRecruiter] := by
decide

/-- Claim C8: Search returns exactly the stored users whose fullName or
email contains the filter case-insensitively — as full records, password
hash included, since membership is over the unprojected user records; the
empty filter returns every user; a filter matching no one returns the
empty collection. -/
theorem bulk_search_spec :
    (∀ (db : DB) (filter : String) (u : User),
        u ∈ bulkUsers db filter ↔ u ∈ db.users ∧ userMatches filter u = true)
    ∧ (∀ db : DB, bulkUsers db "" = db.users)
    ∧ (∀ (db : DB) (filter : String),
        (∀ u ∈ db.users, userMatches filter u = false) →
        bulkUsers db filter = []) := by
refine ⟨?_, ?_, ?_⟩
· intro db filter u
  exact List.mem_filter
· intro db
  unfold bulkUsers
  rw [List.filter_eq_self]
  intro u _
  exact userMatches_empty u
· intro db filter hall
  unfold bulkUsers
  rw [List.filter_eq_nil_iff]
  intro u hu
  simp [hall u hu]

/-- Witness for C8: the case-insensitive filter "BOB" finds exactly the
candidate (by fullName), the empty filter returns the whole user table,
and the unmatched filter "zzz" returns the empty list. -/
theorem bulk_search_spec_witness :
    (wCandidate ∈ bulkUsers wDb "BOB" ↔
      wCandidate ∈ wDb.users ∧ userMatches "BOB" wCandidate = true) ∧
    bulkUsers wDb "" = wDb.users ∧
    bulkUsers wDb "zzz" = [] :=
⟨bulk_search_spec.1 wDb "BOB" wCandidate,
  bulk_search_spec.2.1 wDb,
  bulk_search_spec.2.2 wDb "zzz" (by decide)⟩

/-- Claim C9: company creation consults no role — its outcome never
carries the Forbidden status 403, is identical for any two caller ids and
for any two contents of the user table, and with well-formed input and an
unused name it succeeds for every authenticated caller, Candidates
included. -/
theorem createCompany_no_role_check :
    (∀ (valid : CompanyInput → Bool) (newId : String) (db : DB)
        (caller : String) (input : CompanyInput),
        companyStatusCode (createCompany valid newId db caller input).1 ≠ 403)
    ∧ (∀ (valid : CompanyInput → Bool) (newId : String) (db : DB)
        (c1 c2 : String) (input : CompanyInput),
        createCompany valid newId db c1 input = createCompany valid newId db c2 input)
    ∧ (∀ (valid : CompanyInput → Bool) (newId : String) (db : DB)
        (us1 us2 : List User) (caller : String) (input : CompanyInput),
        (createCompany valid newId { db with users := us1 } caller input).1 =
          (createCompany valid newId { db with users := us2 } caller input).1)
    ∧ (∀ (valid : CompanyInput → Bool) (newId : String) (db : DB)
        (caller : String) (input : CompanyInput),
        valid input = true →
        (∀ comp ∈ db.companies, comp.name ≠ input.name) →
        createCompany valid newId db caller input =
          (.created { id := newId, name := input.name, logo := input.logo },
            { db with companies :=
                db.companies ++ [{ id := newId, name := input.name, logo := input.logo }] })) := by
refine ⟨?_, ?_, ?_, ?_⟩
· intro valid newId db caller input
  cases hv : valid input with
  | false => simp [createCompany, hv, companyStatusCode]
  | true =>
    cases hf : db.companies.find? (fun comp => comp.name == input.name) with
    | none => simp [createCompany, hv, hf, companyStatusCode]
    | some c => simp [createCompany, hv, hf, companyStatusCode]
· intro valid newId db c1 c2 input
  rfl
· intro valid newId db us1 us2 caller input
  cases hv : valid input with
  | false => simp [createCompany, hv]
  | true =>
    cases hf : db.companies.find? (fun comp => comp.name == input.name) with
    | none => simp [createCompany, hv, hf]
    | some c => simp [createCompany, hv, hf]
· intro valid newId db caller input hv hfresh
  have hf : db.companies.find? (fun comp => comp.name == input.name) = none := by
    rw [List.find?_eq_none]
    intro comp hc hp
    exact hfresh comp hc (by simpa using hp)
  simp [createCompany, hv, hf]

/-- Witness for C9: the candidate "u1" creates company "Acme" on the
concrete store (whose company table is empty), and the outcome's status is
not 403. -/
theorem createCompany_no_role_check_witness :
    createCompany (fun _ => true) "c1" wDb "u1" { name := "Acme", logo := "L" } =
      (.created { id := "c1", name := "Acme", logo := "L" },
        { wDb with companies := [{ id := "c1", name := "Acme", logo := "L" }] }) ∧
    companyStatusCode
      (createCompany (fun _ => true) "c1" wDb "u1" { name := "Acme", logo := "L" }).1 ≠ 403 :=
⟨createCompany_no_role_check.2.2.2 (fun _ => true) "c1" wDb "u1"
    { name := "Acme", logo := "L" } (by decide) (by decide),
  createCompany_no_role_check.1 (fun _ => true) "c1" wDb "u1"
    { name := "Acme", logo := "L" }⟩

/-- Claim C10: the user-router middleware's open-path test is substring
containment on the full request URL — any URL containing "/signin" or
"/signup" anywhere (a query string included) proceeds with no userId
attached and no credential check; every other URL proceeds with the
verified claim's id exactly when the verifier accepts the authorization
header, and is rejected with 403 when it does not. -/
theorem userAuthMiddleware_spec :
    ∀ (verify : String → Option String) (url authHeader : String),
      ((strIncludes url "/signin" || strIncludes url "/signup") = true →
        userAuthMiddleware verify url authHeader = .proceed none)
      ∧ ((strIncludes url "/signin" || strIncludes url "/signup") = false →
        (verify authHeader = none →
          userAuthMiddleware verify url authHeader = .reject403)
        ∧ (∀ uid, verify authHeader = some uid →
          userAuthMiddleware verify url authHeader = .proceed (some uid))) := by
intro verify url authHeader
constructor
· intro h
  simp [userAuthMiddleware, h]
· intro h
  constructor
  · intro hv
    simp [userAuthMiddleware, h, hv]
  · intro uid hv
    simp [userAuthMiddleware, h, hv]

/-- Witness for C10: with a verifier accepting only "tok", a protected URL
whose query string mentions "/signin" skips verification even with a bad
header; the same path without it is rejected on the bad header and admits
the good one with the claim's id attached. -/
theorem userAuthMiddleware_spec_witness :
    userAuthMiddleware wVerify "https://api.jobs.dev/user/me?next=/signin" "bad" =
      .proceed none ∧
    userAuthMiddleware wVerify "https://api.jobs.dev/user/me" "bad" = .reject403 ∧
    userAuthMiddleware wVerify "https://api.jobs.dev/user/me" "tok" =
      .proceed (some "u7") :=
⟨(userAuthMiddleware_spec wVerify "https://api.jobs.dev/user/me?next=/signin" "bad").1
    (by decide),
  ((userAuthMiddleware_spec wVerify "https://api.jobs.dev/user/me" "bad").2
    (by decide)).1 (by decide),
  ((userAuthMiddleware_spec wVerify "https://api.jobs.dev/user/me" "tok").2
    (by decide)).2 "u7" (by decide)⟩

end JobPortal
